import Mathlib

/-!
Shallow embedding of `src/Main.cpp` (BRDFs): a Win32/D3D11 rendering harness.

The embedding models the observable behaviour of the program as traces of
GPU/API events.  Machine integers (`UINT`) are modelled as `Nat` with an
explicit `% 2 ^ 32` where overflow matters; fallible calls return
`Except String`; the `std::stacktrace::current()` value captured by the
`Crash` macro is an opaque `String` parameter threaded through the fallible
operations.  Environment-dependent outcomes (HRESULTs of device creation,
present, the feature level the driver reports, window rectangle sizes,
WM_SIZE notifications) are inputs to the model.
-/

namespace BRDFs

/-! ### Assertions (`Crash`, `Check`, `CheckHR`, Main.cpp lines 62-65)

`Crash(msg)` throws `std::runtime_error` with message
the text CRASH, the message and the captured stack trace, via std::format.
`Check(p)` crashes with `"Assertion failed: " #p` when `p` is false. -/

/-- The `what()` string of the exception thrown by the `Crash` macro:
the diagnostic message followed by the captured call stack. -/
def crashMsg (msg stack : String) : String :=
  "[CRASH]: " ++ msg ++ "\n" ++ stack

/-- The diagnostic produced by a failed `Check(p)`: `p` is the stringised
source text of the asserted predicate. -/
def assertionFailed (p stack : String) : String :=
  crashMsg ("Assertion failed: " ++ p) stack

/-- Model of `Check(p)` as a fallible computation. -/
def Check (p : Bool) (src stack : String) : Except String Unit :=
  if p then .ok () else .error (assertionFailed src stack)

/-! ### D3D11 / DXGI enumeration values used by the program -/

/-- The DXGI formats the program mentions (`DXGI_FORMAT`, value-initialised
member default is `DXGI_FORMAT_UNKNOWN`). -/
inductive DXGI_FORMAT
  | unknown
  | r16_uint
  | r32_uint
deriving DecidableEq

/-- Driver types passed to `D3D11CreateDevice`. -/
inductive D3D_DRIVER_TYPE
  | hardware
  | warp
  | reference
deriving DecidableEq

/-- Direct3D feature levels. -/
inductive D3D_FEATURE_LEVEL
  | level_9_1
  | level_10_0
  | level_10_1
  | level_11_0
  | level_11_1
deriving DecidableEq

/-- The map modes of `ID3D11DeviceContext::Map`. -/
inductive D3D11_MAP
  | write_discard
  | write_no_overwrite
  | write
deriving DecidableEq

/-! ### `CreateD3D11Device` (Main.cpp lines 148-164)

The function passes `D3D_DRIVER_TYPE_HARDWARE` and a one-element feature
level array `{ D3D_FEATURE_LEVEL_11_0 }` to `D3D11CreateDevice`, checks the
HRESULT (`CheckHR`), and then `Check`s that the supported level equals the
required one.  The HRESULT outcome and the reported supported level are
environment inputs. -/

/-- What `CreateD3D11Device` asks of `D3D11CreateDevice`: the driver type
and the list of acceptable feature levels. -/
structure DeviceRequest where
  driver_type : D3D_DRIVER_TYPE
  feature_levels : List D3D_FEATURE_LEVEL
deriving DecidableEq

/-- The request issued at Main.cpp line 158: hardware acceleration,
exactly the single feature level `D3D_FEATURE_LEVEL_11_0`. -/
def CreateD3D11DeviceRequest : DeviceRequest :=
  { driver_type := .hardware, feature_levels := [.level_11_0] }

/-- Model of `CreateD3D11Device`: `call_ok` is whether `D3D11CreateDevice` returned a
success HRESULT, `supported_lvl` the level it reported.  On success the
device is summarised by its validated feature level. -/
def CreateD3D11Device (call_ok : Bool) (supported_lvl : D3D_FEATURE_LEVEL)
    (stack : String) : Except String D3D_FEATURE_LEVEL :=
  match Check call_ok "SUCCEEDED(hr)" stack with
  | .error e => .error e
  | .ok _ =>
    match Check (decide (D3D_FEATURE_LEVEL.level_11_0 = supported_lvl))
        "required_lvl == supported_lvl" stack with
    | .error e => .error e
    | .ok _ => .ok supported_lvl

/-! ### `Mesh` (Main.cpp lines 247-399)

The constructor stores the counts/stride, runs four `Check`s, derives the
index format from the index stride, and then creates the vertex buffer and
the index buffer on the GPU.  Buffer creations are recorded as events so
that "no buffer is created before the checks pass" is observable. -/

/-- Machine `UINT` arithmetic is modulo `2 ^ 32`. -/
def UINT_MOD : Nat := 2 ^ 32

/-- GPU buffer creations performed by the `Mesh` constructor. -/
inductive MeshEv
  | createVertexBuffer (byteWidth : Nat)
  | createIndexBuffer (byteWidth : Nat)
deriving DecidableEq

/-- The fields of a constructed `Mesh` that its accessors report
(`VertexCount`, `IndexCount`, `Stride`, `IndexFormat`, `Offset`). -/
structure Mesh where
  vertex_count : Nat
  index_count : Nat
  stride : Nat
  index_format : DXGI_FORMAT
  offset : Nat
deriving DecidableEq

/-- Model of `Mesh::Mesh(d3d_dev, vertex_count, vertex_size, vertices, index_count,
index_size, indices)`: the trace of buffer creations together with the
result.  A failed `Check` aborts before any buffer creation. -/
def Mesh.construct (vertex_count vertex_size index_count index_size : Nat)
    (stack : String) : List MeshEv × Except String Mesh :=
  if ¬ 0 < vertex_count then
    ([], .error (assertionFailed "vertex_count > 0" stack))
  else if ¬ 0 < index_count then
    ([], .error (assertionFailed "index_count > 0" stack))
  else if ¬ 0 < vertex_size then
    ([], .error (assertionFailed "vertex_size > 0" stack))
  else if ¬ (0 < index_size ∧ (index_size = 2 ∨ index_size = 4)) then
    ([], .error (assertionFailed
      "index_size > 0 && (index_size == 2 || index_size == 4)" stack))
  else
    let fmt : DXGI_FORMAT := if index_size = 2 then .r16_uint else .r32_uint
    ([MeshEv.createVertexBuffer (vertex_count * vertex_size % UINT_MOD),
      MeshEv.createIndexBuffer (index_count * index_size % UINT_MOD)],
     .ok { vertex_count := vertex_count, index_count := index_count,
           stride := vertex_size, index_format := fmt, offset := 0 })

/-! ### Window-size fetch and projection aspect (Main.cpp lines 665-674, 723-728)

`GetClientRect` yields `rect.right`/`rect.bottom` (LONG, modelled as `Int`);
both are clamped with `std::max(·, MIN_WINDOW_DIMENSION)` before use.  The
aspect ratio `window_w / window_h` is modelled in exact rational arithmetic:
a positive rational corresponds to a finite, non-NaN positive float since
both clamped operands are at least 8 and bounded by the LONG range. -/

/-- The constant `MIN_WINDOW_DIMENSION` of value 8 (Main.cpp line 671). -/
def MIN_WINDOW_DIMENSION : Int := 8

/-- The clamped `(window_w, window_h)` pair computed from the client
rectangle (Main.cpp lines 672-673). -/
def fetchWindowSize (right bottom : Int) : Int × Int :=
  (max right MIN_WINDOW_DIMENSION, max bottom MIN_WINDOW_DIMENSION)

/-- The aspect ratio `window_w / window_h` (Main.cpp line 726), in exact
rational arithmetic. -/
def aspect (w h : Int) : ℚ :=
  (w : ℚ) / (h : ℚ)

/-! ### The frame loop (Main.cpp lines 642-844)

Observable events of one loop iteration.  `Framebuffer` instances are
identified by the generation of the swap-chain back buffer they wrap:
generation 0 is the initial surface, and each `ResizeBuffers` call bumps
the generation.  Events that touch the render target record which
framebuffer (if any) is bound, and draw/present events additionally record
the swap chain's current generation at that moment, so that "the target
wraps the post-resize back buffer" is checkable on the trace. -/

/-- The two dynamic constant buffers (`cb_scene`, `cb_object`). -/
inductive CBuf
  | scene
  | object
deriving DecidableEq

/-- Observable events of the frame loop. -/
inductive Ev
  | clearState
  | discardFramebuffer
  | resizeBuffers
  | buildFramebuffer (gen : Nat)
  | clearResizeSignal
  | clearRenderTargetView (fb : Option Nat)
  | bindPipeline (fb : Option Nat) (w h : Int)
  | mapBuf (b : CBuf) (map_type : D3D11_MAP)
  | writeBuf (b : CBuf)
  | unmapBuf (b : CBuf)
  | setIndexBuffer
  | setVertexBuffers
  | drawIndexed (fb : Option Nat) (cur : Nat)
  | imguiRender (fb : Option Nat)
  | present (fb : Option Nat) (cur : Nat) (sync : Nat)
deriving DecidableEq

/-- The `SubresourceMap` RAII guard (Main.cpp lines 401-430): the
constructor maps the resource, the destructor unmaps it on scope exit on
every path — also when the scope body fails.  `body` is the events the
scope body performs together with its outcome. -/
def SubresourceMapScope (b : CBuf) (map_type : D3D11_MAP)
    (body : List Ev × Option String) : List Ev × Option String :=
  (Ev.mapBuf b map_type :: body.1 ++ [Ev.unmapBuf b], body.2)

/-- A constant-buffer upload as the program performs it (Main.cpp lines
730-737, 757-765, 793-801): map with `D3D11_MAP_WRITE_DISCARD`, one CPU
write, unmap by scope exit. -/
def scopedConstantWrite (b : CBuf) : List Ev :=
  (SubresourceMapScope b .write_discard ([Ev.writeBuf b], none)).1

/-- The mutable loop state: the swap chain's back-buffer generation, the
framebuffer (`some g` = built, wrapping the generation-`g` back buffer;
`none` = value-initialised/empty, i.e. discarded), and the process-wide
`s_did_resize` flag (Main.cpp line 69). -/
structure LoopState where
  swapGen : Nat
  framebuffer : Option Nat
  didResize : Bool
deriving DecidableEq

/-- Environment inputs of one frame iteration: whether a `WM_SIZE`
notification arrived during message draining since the previous frame
(which sets `s_did_resize`, Main.cpp line 94), the client rectangle the
frame observes, and whether `Present` returns a success HRESULT. -/
structure FrameInput where
  resize : Bool
  rectRight : Int
  rectBottom : Int
  presentOk : Bool
deriving DecidableEq

/-- One iteration of the frame body (the `else` branch of the message pump,
Main.cpp lines 652-842): resize handling, window-size fetch, scene
rendering (clear, pipeline binds, two scoped constant writes per object
draw), ImGui overlay, present.  Returns the event trace, the state after
the iteration, and `some crash` when the `CheckHR` on `Present` fails. -/
def frameBody (stack : String) (inp : FrameInput) (s0 : LoopState) :
    List Ev × LoopState × Option String :=
  let s1 : LoopState :=
    { s0 with didResize := s0.didResize || inp.resize }
  let pre_s2 : List Ev × LoopState :=
    if s1.didResize then
      ([Ev.clearState, Ev.discardFramebuffer, Ev.resizeBuffers,
        Ev.buildFramebuffer (s1.swapGen + 1), Ev.clearResizeSignal],
       { swapGen := s1.swapGen + 1, framebuffer := some (s1.swapGen + 1),
         didResize := false })
    else ([], s1)
  let pre := pre_s2.1
  let s2 := pre_s2.2
  let wh := fetchWindowSize inp.rectRight inp.rectBottom
  let fb := s2.framebuffer
  let g := s2.swapGen
  let body : List Ev :=
    [Ev.clearRenderTargetView fb, Ev.clearState, Ev.bindPipeline fb wh.1 wh.2]
    ++ scopedConstantWrite CBuf.scene
    ++ scopedConstantWrite CBuf.object
    ++ [Ev.setIndexBuffer, Ev.setVertexBuffers, Ev.drawIndexed fb g]
    ++ scopedConstantWrite CBuf.object
    ++ [Ev.setIndexBuffer, Ev.setVertexBuffers, Ev.drawIndexed fb g]
    ++ [Ev.imguiRender fb, Ev.present fb g 1]
  (pre ++ body, s2,
   if inp.presentOk then none else some (assertionFailed "SUCCEEDED(hr)" stack))

/-- The frame loop: runs iterations until the input list is exhausted (a
`WM_QUIT` terminates the loop) or an iteration crashes, in which case the
exception propagates and no further iteration runs. -/
def runFrames (stack : String) (s : LoopState) :
    List FrameInput → List Ev × LoopState × Option String
  | [] => ([], s, none)
  | inp :: rest =>
    let r := frameBody stack inp s
    match r.2.2 with
    | some e => (r.1, r.2.1, some e)
    | none =>
      let rr := runFrames stack r.2.1 rest
      (r.1 ++ rr.1, rr.2.1, rr.2.2)

/-- The loop state on entry to the main application loop: the swap chain
is freshly created (generation 0), the framebuffer was built from it
(Main.cpp line 564), and `s_did_resize` starts false. -/
def entryInit : LoopState :=
  { swapGen := 0, framebuffer := some 0, didResize := false }

/-- Environment of a whole run of `Entry`: the `D3D11CreateDevice` outcome,
the per-frame inputs, and the call stack the `Crash` macro would capture. -/
structure EntryEnv where
  devCallOk : Bool
  supportedLvl : D3D_FEATURE_LEVEL
  frames : List FrameInput
  stack : String

/-- Model of `Entry` (Main.cpp lines 536-845), restricted to its fallible GPU
lifecycle: create the device, upload the cube mesh (24 vertices of 12
bytes, 36 indices of 4 bytes, Main.cpp line 349), then run the frame loop.
Any failure propagates as the exception's `what()` string. -/
def Entry (env : EntryEnv) : Except String (List Ev) :=
  match CreateD3D11Device env.devCallOk env.supportedLvl env.stack with
  | .error e => .error e
  | .ok _ =>
    match (Mesh.construct 24 12 36 4 env.stack).2 with
    | .error e => .error e
    | .ok _ =>
      let r := runFrames env.stack entryInit env.frames
      match r.2.2 with
      | some e => .error e
      | none => .ok r.1

/-- Model of `main` (Main.cpp lines 849-861): run `Entry` under a try/catch that
prints `e.what()` for a `std::runtime_error`; in every case `return 0`.
Result: what is printed (if anything) and the process exit status. -/
def main (env : EntryEnv) : Option String × Int :=
  match Entry env with
  | .ok _ => (none, 0)
  | .error e => (some e, 0)

/-! ### Trace predicates used by the verification -/

/-- Is this event the clearing of the resize signal? -/
def isClearResizeSignal : Ev → Bool
  | .clearResizeSignal => true
  | _ => false

/-- Is this event a draw call or a present? -/
def isDrawOrPresentEv : Ev → Bool
  | .drawIndexed _ _ => true
  | .present _ _ _ => true
  | _ => false

/-- Is this event a present? -/
def isPresentEv : Ev → Bool
  | .present _ _ _ => true
  | _ => false

/-- A draw or present event is sound when a framebuffer is bound and it
wraps the swap chain's current back buffer (generation equality); other
events are unconstrained. -/
def goodDrawPresent : Ev → Bool
  | .drawIndexed fb cur => decide (fb = some cur)
  | .present fb cur _ => decide (fb = some cur)
  | _ => true

/-- All draw/present events of a trace are sound. -/
def allGoodDrawPresent (t : List Ev) : Bool :=
  t.all goodDrawPresent

/-- Scanner state for map/unmap bracketing: `some (some b, n)` means buffer
`b` is currently mapped and has received `n` writes in the open bracket;
`some (none, 0)` means no buffer is mapped; `none` means a violation
occurred. -/
def wbStep : Option (Option CBuf × Nat) → Ev → Option (Option CBuf × Nat)
  | none, _ => none
  | some (none, _), .mapBuf b _ => some (some b, 0)
  | some (none, _), .writeBuf _ => none
  | some (none, _), .unmapBuf _ => none
  | some (none, _), _ => some (none, 0)
  | some (some b, n), .writeBuf c => if b = c then some (some b, n + 1) else none
  | some (some b, n), .unmapBuf c =>
    if b = c ∧ n = 1 then some (none, 0) else none
  | some (some _, _), _ => none

/-- Run the bracketing scanner over a trace. -/
def wbRun (t : List Ev) : Option (Option CBuf × Nat) :=
  t.foldl wbStep (some (none, 0))

/-- A trace is well bracketed when the scan ends with no violation and no
open mapping: every write is inside a map/unmap bracket of the same buffer,
every bracket holds exactly one write, and every map is closed. -/
def wellBracketed (t : List Ev) : Prop :=
  wbRun t = some (none, 0)

/-- Does this event respect discard-on-map semantics (trivially true for
events that are not maps)? -/
def mapIsDiscard : Ev → Bool
  | .mapBuf _ mt => decide (mt = .write_discard)
  | _ => true

/-- Every mapping in the trace uses discard-on-map semantics. -/
def allMapsDiscard (t : List Ev) : Bool :=
  t.all mapIsDiscard

/-! ## Verification -/

/-- C4: for every value returned by the window client-area query (including
0×0 from a minimized window), both dimensions used for the viewport and the
projection are clamped to at least 8 before any projection computation, so
the aspect ratio width/height is a well-defined positive rational (hence a
finite, non-NaN positive float in the source's bounded range). -/
theorem window_clamp_aspect_positive (right bottom : Int) :
    8 ≤ (fetchWindowSize right bottom).1 ∧
    8 ≤ (fetchWindowSize right bottom).2 ∧
    0 < aspect (fetchWindowSize right bottom).1 (fetchWindowSize right bottom).2 := by
  have hw : (8 : Int) ≤ max right MIN_WINDOW_DIMENSION := le_max_right right 8
  have hh : (8 : Int) ≤ max bottom MIN_WINDOW_DIMENSION := le_max_right bottom 8
  refine ⟨hw, hh, ?_⟩
  have hw0 : (0 : Int) < max right MIN_WINDOW_DIMENSION := by omega
  have hh0 : (0 : Int) < max bottom MIN_WINDOW_DIMENSION := by omega
  simp only [fetchWindowSize, aspect]
  exact div_pos (by exact_mod_cast hw0) (by exact_mod_cast hh0)

/-- C5: for every input with positive vertex and index counts and index
width 2 or 4 (and a positive vertex stride), `Mesh` construction succeeds,
the mesh reports exactly the given counts, and the index format is derived
deterministically from the index width (2 → 16-bit, 4 → 32-bit). -/
theorem mesh_valid_construction (vertex_count vertex_size index_count index_size : Nat)
    (stack : String) (hvc : 0 < vertex_count) (hic : 0 < index_count)
    (his : index_size = 2 ∨ index_size = 4) (hvs : 0 < vertex_size) :
    ∃ m : Mesh,
      (Mesh.construct vertex_count vertex_size index_count index_size stack).2 = .ok m ∧
      m.vertex_count = vertex_count ∧ m.index_count = index_count ∧
      m.index_format =
        (if index_size = 2 then DXGI_FORMAT.r16_uint else DXGI_FORMAT.r32_uint) := by
  rcases his with h | h <;> subst h
  · exact ⟨Mesh.mk vertex_count index_count vertex_size .r16_uint 0,
      by simp [Mesh.construct, hvc, hic, hvs], rfl, rfl, by simp⟩
  · exact ⟨Mesh.mk vertex_count index_count vertex_size .r32_uint 0,
      by simp [Mesh.construct, hvc, hic, hvs], rfl, rfl, by simp⟩

/-- C5 witness: a concrete valid construction (3 vertices of stride 12,
3 indices of width 2) succeeds with the 16-bit index format. -/
theorem mesh_valid_construction_witness :
    (0 < 3 ∧ (2 = 2 ∨ 2 = 4) ∧ 0 < 12) ∧
    ∃ m : Mesh, (Mesh.construct 3 12 3 2 "stk5").2 = .ok m ∧
      m.vertex_count = 3 ∧ m.index_count = 3 ∧
      m.index_format = (if 2 = 2 then DXGI_FORMAT.r16_uint else DXGI_FORMAT.r32_uint) :=
  ⟨⟨by decide, by decide, by decide⟩,
    mesh_valid_construction 3 12 3 2 "stk5" (by decide) (by decide) (by decide) (by decide)⟩

/-- C6: a `Mesh` creation request with an invalid index width (anything
other than 2 or 4) or a zero vertex or index count fails with an
`AssertionFailure`, and no GPU buffer creation happens: the failing check
precedes both buffer-creation calls, so the creation trace is empty. -/
theorem mesh_invalid_rejected_before_buffers
    (vertex_count vertex_size index_count index_size : Nat) (stack : String)
    (h : (index_size ≠ 2 ∧ index_size ≠ 4) ∨ vertex_count = 0 ∨ index_count = 0) :
    (∃ e, (Mesh.construct vertex_count vertex_size index_count index_size stack).2 =
        .error e) ∧
    (Mesh.construct vertex_count vertex_size index_count index_size stack).1 = [] := by
  by_cases hvc : 0 < vertex_count
  · by_cases hic : 0 < index_count
    · by_cases hvs : 0 < vertex_size
      · have hw : index_size ≠ 2 ∧ index_size ≠ 4 := by
          rcases h with hw | hz | hz
          · exact hw
          · omega
          · omega
        simp [Mesh.construct, hvc, hic, hvs, hw.1, hw.2]
      · simp [Mesh.construct, hvc, hic, hvs]
    · simp [Mesh.construct, hvc, hic]
  · simp [Mesh.construct, hvc]

/-- C6 witness: index width 3 is rejected with an empty buffer-creation
trace. -/
theorem mesh_invalid_rejected_before_buffers_witness :
    ((3 : Nat) ≠ 2 ∧ (3 : Nat) ≠ 4) ∧
    (∃ e, (Mesh.construct 24 12 36 3 "stk6").2 = .error e) ∧
    (Mesh.construct 24 12 36 3 "stk6").1 = [] :=
  ⟨by decide,
    mesh_invalid_rejected_before_buffers 24 12 36 3 "stk6" (.inl (by decide))⟩

/-- C9: `Mesh` construction has an unstated precondition on the vertex
stride: a zero `vertex_size` fails with an `AssertionFailure` even when the
vertex count, index count and index width are all valid, and it is rejected
before any GPU buffer is created. -/
theorem mesh_zero_stride_rejected (vertex_count index_count index_size : Nat)
    (stack : String) (hvc : 0 < vertex_count) (hic : 0 < index_count)
    (_his : index_size = 2 ∨ index_size = 4) :
    (Mesh.construct vertex_count 0 index_count index_size stack).2 =
      .error (assertionFailed "vertex_size > 0" stack) ∧
    (Mesh.construct vertex_count 0 index_count index_size stack).1 = [] := by
  simp [Mesh.construct, hvc, hic]

/-- C9 witness: stride 0 with otherwise valid arguments fails. -/
theorem mesh_zero_stride_rejected_witness :
    (0 < 24 ∧ 0 < 36 ∧ ((4 : Nat) = 2 ∨ (4 : Nat) = 4)) ∧
    (Mesh.construct 24 0 36 4 "stk9").2 =
      .error (assertionFailed "vertex_size > 0" "stk9") ∧
    (Mesh.construct 24 0 36 4 "stk9").1 = [] :=
  ⟨⟨by decide, by decide, by decide⟩,
    mesh_zero_stride_rejected 24 36 4 "stk9" (by decide) (by decide) (by decide)⟩

/-- C7: device creation requests hardware acceleration at exactly the
required feature level 11.0 and succeeds precisely when the
`D3D11CreateDevice` call succeeds and the supported level equals the
required one; in every other case it fails hard with an assertion error —
there is no fallback path. -/
theorem device_requires_exact_feature_level :
    CreateD3D11DeviceRequest =
      { driver_type := .hardware, feature_levels := [.level_11_0] } ∧
    (∀ (call_ok : Bool) (lvl : D3D_FEATURE_LEVEL) (stack : String),
      (∃ d, CreateD3D11Device call_ok lvl stack = .ok d) ↔
        (call_ok = true ∧ lvl = D3D_FEATURE_LEVEL.level_11_0)) ∧
    (∀ (call_ok : Bool) (lvl : D3D_FEATURE_LEVEL) (stack : String),
      ¬ (call_ok = true ∧ lvl = D3D_FEATURE_LEVEL.level_11_0) →
        ∃ e, CreateD3D11Device call_ok lvl stack = .error e) := by
  refine ⟨rfl, ?_, ?_⟩
  · intro call_ok lvl stack
    cases call_ok <;> cases lvl <;> simp [CreateD3D11Device, Check]
  · intro call_ok lvl stack h
    cases call_ok <;> cases lvl <;> simp_all [CreateD3D11Device, Check]

/-- C7 witness: a failed `D3D11CreateDevice` call yields an error even at
the required level. -/
theorem device_requires_exact_feature_level_witness :
    ∃ e, CreateD3D11Device false D3D_FEATURE_LEVEL.level_11_0 "stk7" = .error e :=
  device_requires_exact_feature_level.2.2 false D3D_FEATURE_LEVEL.level_11_0 "stk7"
    (by simp)

/-- C1: in every frame-loop iteration in which the resize signal is set,
the controller performs — in this exact order, before any draw or present
of that iteration — `ClearState`, discard of the framebuffer, swap-chain
`ResizeBuffers`, build of a new framebuffer from the resized surface, and
clearing of the resize signal; the signal is cleared exactly once in the
iteration, and no draw or present event occurs before the sub-sequence
completes. -/
theorem resize_rebuild_exact_sequence (stack : String) (inp : FrameInput)
    (s : LoopState) (h : (s.didResize || inp.resize) = true) :
    (frameBody stack inp s).1.take 5 =
      [Ev.clearState, Ev.discardFramebuffer, Ev.resizeBuffers,
       Ev.buildFramebuffer (s.swapGen + 1), Ev.clearResizeSignal] ∧
    (frameBody stack inp s).1.countP isClearResizeSignal = 1 ∧
    ((frameBody stack inp s).1.take 5).countP isDrawOrPresentEv = 0 ∧
    (frameBody stack inp s).2.1.didResize = false := by
  simp [frameBody, h, scopedConstantWrite, SubresourceMapScope,
    isClearResizeSignal, isDrawOrPresentEv, List.countP_cons, List.countP_nil]

/-- C1 witness: a concrete iteration with the resize signal raised, from
the initial loop state. -/
theorem resize_rebuild_exact_sequence_witness :
    ((entryInit.didResize || true) = true) ∧
    ((frameBody "stk1" ⟨true, 640, 480, true⟩ entryInit).1.take 5 =
      [Ev.clearState, Ev.discardFramebuffer, Ev.resizeBuffers,
       Ev.buildFramebuffer 1, Ev.clearResizeSignal] ∧
     (frameBody "stk1" ⟨true, 640, 480, true⟩ entryInit).1.countP
       isClearResizeSignal = 1 ∧
     ((frameBody "stk1" ⟨true, 640, 480, true⟩ entryInit).1.take 5).countP
       isDrawOrPresentEv = 0 ∧
     (frameBody "stk1" ⟨true, 640, 480, true⟩ entryInit).2.1.didResize = false) :=
  ⟨rfl, resize_rebuild_exact_sequence "stk1" ⟨true, 640, 480, true⟩ entryInit rfl⟩

/-- Helper: one frame-body iteration preserves the bound-framebuffer
invariant and emits only draw/present events that reference the swap
chain's current back buffer. -/
theorem frameBody_bound_invariant (stack : String) (inp : FrameInput)
    (s : LoopState) (h : s.framebuffer = some s.swapGen) :
    (frameBody stack inp s).2.1.framebuffer =
      some (frameBody stack inp s).2.1.swapGen ∧
    allGoodDrawPresent (frameBody stack inp s).1 = true := by
  by_cases hr : (s.didResize || inp.resize) = true
  · simp [frameBody, hr, allGoodDrawPresent, goodDrawPresent,
      scopedConstantWrite, SubresourceMapScope]
  · simp only [Bool.not_eq_true] at hr
    simp [frameBody, hr, h, allGoodDrawPresent, goodDrawPresent,
      scopedConstantWrite, SubresourceMapScope]

/-- Helper: from any state whose framebuffer wraps the current back buffer,
every trace of the frame loop contains only sound draw/present events, and
the invariant still holds at the end. -/
theorem runFrames_bound_invariant (stack : String) (inputs : List FrameInput) :
    ∀ s : LoopState, s.framebuffer = some s.swapGen →
      allGoodDrawPresent (runFrames stack s inputs).1 = true ∧
      (runFrames stack s inputs).2.1.framebuffer =
        some (runFrames stack s inputs).2.1.swapGen := by
  induction inputs with
  | nil => intro s h; exact ⟨rfl, h⟩
  | cons inp rest ih =>
    intro s h
    have hb := frameBody_bound_invariant stack inp s h
    rcases hfb : frameBody stack inp s with ⟨t, s2, err⟩
    rw [hfb] at hb
    dsimp only at hb
    cases err with
    | some e =>
      simp only [runFrames, hfb]
      exact ⟨hb.2, hb.1⟩
    | none =>
      have hrec := ih s2 hb.1
      simp only [runFrames, hfb]
      refine ⟨?_, hrec.2⟩
      simp only [allGoodDrawPresent, List.all_append, Bool.and_eq_true]
      exact ⟨hb.2, hrec.1⟩

/-- C2: over every sequence of resize signals interleaved with frames, no
draw and no present is issued while the framebuffer is in the discarded
(`Unbound`/`Unbinding`) state: every `DrawIndexed` and every `Present` in
the loop trace carries a built framebuffer, and that framebuffer wraps the
swap chain's current (post-resize) back buffer, never a pre-resize one. -/
theorem no_draw_present_while_unbound (stack : String)
    (inputs : List FrameInput) :
    allGoodDrawPresent (runFrames stack entryInit inputs).1 = true :=
  (runFrames_bound_invariant stack inputs entryInit rfl).1

/-- Helper: appending after a closed well-bracketed trace restarts the
bracket scanner. -/
theorem wbRun_append_of_closed (t1 t2 : List Ev)
    (h : wbRun t1 = some (none, 0)) : wbRun (t1 ++ t2) = wbRun t2 := by
  unfold wbRun at h ⊢
  rw [List.foldl_append, h]

/-- Helper: the trace of one frame-body iteration is well bracketed and all
its maps use discard-on-map semantics. -/
theorem frameBody_wellBracketed (stack : String) (inp : FrameInput)
    (s : LoopState) :
    wellBracketed (frameBody stack inp s).1 ∧
    allMapsDiscard (frameBody stack inp s).1 = true := by
  by_cases hr : (s.didResize || inp.resize) = true
  · simp [frameBody, hr, wellBracketed, wbRun, wbStep, scopedConstantWrite,
      SubresourceMapScope, allMapsDiscard, mapIsDiscard]
  · simp only [Bool.not_eq_true] at hr
    simp [frameBody, hr, wellBracketed, wbRun, wbStep, scopedConstantWrite,
      SubresourceMapScope, allMapsDiscard, mapIsDiscard]

/-- Helper: every frame-loop trace is well bracketed with discard-on-map
semantics, from any starting state. -/
theorem runFrames_wellBracketed (stack : String) (inputs : List FrameInput) :
    ∀ s : LoopState, wellBracketed (runFrames stack s inputs).1 ∧
      allMapsDiscard (runFrames stack s inputs).1 = true := by
  induction inputs with
  | nil => intro s; exact ⟨rfl, rfl⟩
  | cons inp rest ih =>
    intro s
    have hb := frameBody_wellBracketed stack inp s
    rcases hfb : frameBody stack inp s with ⟨t, s2, err⟩
    rw [hfb] at hb
    dsimp only at hb
    cases err with
    | some e => simpa [runFrames, hfb] using hb
    | none =>
      have hrec := ih s2
      simp only [runFrames, hfb]
      refine ⟨?_, ?_⟩
      · unfold wellBracketed
        rw [wbRun_append_of_closed _ _ hb.1]
        exact hrec.1
      · simp only [allMapsDiscard, List.all_append, Bool.and_eq_true]
        exact ⟨hb.2, hrec.2⟩

/-- C3: every CPU write to a dynamic constant buffer is bracketed by exactly
one map/unmap pair: the scoped guard acquires the mapping in its
constructor (with discard-on-map semantics) and releases it exactly once on
scope exit on all paths — also when the scope body fails — so in every
frame-loop trace no buffer is written outside a mapped bracket, each
bracket contains exactly one CPU write of its own buffer, and every map is
closed. -/
theorem scoped_map_write_bracketing :
    (∀ (b : CBuf) (mt : D3D11_MAP) (body : List Ev × Option String),
      (SubresourceMapScope b mt body).1 =
        Ev.mapBuf b mt :: body.1 ++ [Ev.unmapBuf b]) ∧
    (∀ (stack : String) (inputs : List FrameInput),
      wellBracketed (runFrames stack entryInit inputs).1 ∧
      allMapsDiscard (runFrames stack entryInit inputs).1 = true) :=
  ⟨fun _ _ _ => rfl, fun stack inputs => runFrames_wellBracketed stack inputs entryInit⟩

/-- Helper: the crash outcome of one iteration is exactly the `CheckHR` on
`Present`. -/
theorem frameBody_err (stack : String) (inp : FrameInput) (s : LoopState) :
    (frameBody stack inp s).2.2 =
      if inp.presentOk then none
      else some (assertionFailed "SUCCEEDED(hr)" stack) := rfl

/-- Helper: each iteration contains exactly one present call, and it is the
final event, issued with sync interval 1. -/
theorem frameBody_one_present (stack : String) (inp : FrameInput)
    (s : LoopState) :
    ((frameBody stack inp s).1).countP isPresentEv = 1 ∧
    ∃ fb g, ((frameBody stack inp s).1).getLast? = some (Ev.present fb g 1) := by
  by_cases hr : (s.didResize || inp.resize) = true
  · refine ⟨?_, some (s.swapGen + 1), s.swapGen + 1, ?_⟩ <;>
      simp [frameBody, hr, scopedConstantWrite, SubresourceMapScope,
        isPresentEv, List.countP_cons, List.countP_nil, List.getLast?]
  · simp only [Bool.not_eq_true] at hr
    refine ⟨?_, s.framebuffer, s.swapGen, ?_⟩ <;>
      simp [frameBody, hr, scopedConstantWrite, SubresourceMapScope,
        isPresentEv, List.countP_cons, List.countP_nil, List.getLast?]

/-- Helper: the only crash the frame loop itself produces is the failed
`CheckHR` on `Present`. -/
theorem runFrames_error_msg (stack : String) :
    ∀ (inputs : List FrameInput) (s : LoopState) (e : String),
      (runFrames stack s inputs).2.2 = some e →
      e = assertionFailed "SUCCEEDED(hr)" stack := by
  intro inputs
  induction inputs with
  | nil => intro s e h; simp [runFrames] at h
  | cons inp rest ih =>
    intro s e h
    have he := frameBody_err stack inp s
    rcases hfb : frameBody stack inp s with ⟨t, s2, err⟩
    rw [hfb] at he
    dsimp only at he
    cases err with
    | some e2 =>
      simp only [runFrames, hfb] at h
      cases hp : inp.presentOk
      · rw [hp] at he
        simp at he h
        rw [← h]
        exact he
      · rw [hp] at he
        simp at he
    | none =>
      simp only [runFrames, hfb] at h
      exact ih s2 e h

/-- Helper: every crash message of the `Crash` macro ends with the captured
call stack. -/
theorem assertionFailed_endswith (p stack : String) :
    ∃ q, assertionFailed p stack = q ++ stack :=
  ⟨"[CRASH]: " ++ ("Assertion failed: " ++ p) ++ "\n", rfl⟩

/-- Helper: the error messages of failed device creation. -/
theorem CreateD3D11Device_error_msg (call_ok : Bool) (lvl : D3D_FEATURE_LEVEL)
    (stack e : String) (h : CreateD3D11Device call_ok lvl stack = .error e) :
    e = assertionFailed "SUCCEEDED(hr)" stack ∨
    e = assertionFailed "required_lvl == supported_lvl" stack := by
  cases call_ok <;> cases lvl <;>
    simp [CreateD3D11Device, Check] at h <;> simp [h]

/-- Helper: whatever failure terminates a run, its diagnostic carries the
captured call stack. -/
theorem Entry_error_endswith_stack (env : EntryEnv) (e : String)
    (h : Entry env = .error e) : ∃ p, e = p ++ env.stack := by
  unfold Entry at h
  rcases hdev : CreateD3D11Device env.devCallOk env.supportedLvl env.stack
    with ed | d
  · rw [hdev] at h
    simp only [Except.error.injEq] at h
    rcases CreateD3D11Device_error_msg env.devCallOk env.supportedLvl
        env.stack ed hdev with hm | hm <;>
      { rw [← h, hm]; exact assertionFailed_endswith _ _ }
  · rw [hdev] at h
    have hmesh : (Mesh.construct 24 12 36 4 env.stack).2 =
        .ok (Mesh.mk 24 36 12 .r32_uint 0) := rfl
    rw [hmesh] at h
    dsimp only at h
    rcases hr : (runFrames env.stack entryInit env.frames).2.2 with _ | e2
    · rw [hr] at h
      simp at h
    · rw [hr] at h
      simp only [Except.error.injEq] at h
      rw [← h, runFrames_error_msg env.stack env.frames entryInit e2 hr]
      exact assertionFailed_endswith _ _

/-- C8: every frame ends with a present of the swap chain with vertical
sync (sync interval 1); a present failure is fatal: the iteration makes
exactly one present attempt, the loop runs no further iteration, and the
failure propagates to the single top-level handler, which prints a
diagnostic that carries the captured call stack and returns — there is no
retry, recovery or degraded mode. -/
theorem present_vsync_failure_fatal :
    (∀ (stack : String) (inp : FrameInput) (s : LoopState),
      ((frameBody stack inp s).1).countP isPresentEv = 1 ∧
      ∃ fb g, ((frameBody stack inp s).1).getLast? = some (Ev.present fb g 1)) ∧
    (∀ (stack : String) (s : LoopState) (inp : FrameInput)
        (rest : List FrameInput), inp.presentOk = false →
      runFrames stack s (inp :: rest) =
        ((frameBody stack inp s).1, (frameBody stack inp s).2.1,
          some (assertionFailed "SUCCEEDED(hr)" stack))) ∧
    (∀ (env : EntryEnv) (e : String), Entry env = .error e →
      main env = (some e, 0) ∧ ∃ p, e = p ++ env.stack) := by
  refine ⟨frameBody_one_present, ?_, ?_⟩
  · intro stack s inp rest hp
    have he := frameBody_err stack inp s
    rcases hfb : frameBody stack inp s with ⟨t, s2, err⟩
    rw [hfb] at he
    dsimp only at he
    rw [hp] at he
    simp only [Bool.false_eq_true, if_false] at he
    simp [runFrames, hfb, he]
  · intro env e h
    exact ⟨by simp [main, h], Entry_error_endswith_stack env e h⟩

/-- C8 witness: a concrete failing present from the initial state, and the
top-level handler's observable result on that run. -/
theorem present_vsync_failure_fatal_witness :
    ((⟨false, 0, 0, false⟩ : FrameInput).presentOk = false) ∧
    (runFrames "stk8" entryInit [⟨false, 0, 0, false⟩] =
      ((frameBody "stk8" ⟨false, 0, 0, false⟩ entryInit).1,
       (frameBody "stk8" ⟨false, 0, 0, false⟩ entryInit).2.1,
       some (assertionFailed "SUCCEEDED(hr)" "stk8"))) ∧
    (main ⟨true, .level_11_0, [⟨false, 0, 0, false⟩], "stk8"⟩ =
      (some (assertionFailed "SUCCEEDED(hr)" "stk8"), 0) ∧
     ∃ p, assertionFailed "SUCCEEDED(hr)" "stk8" = p ++ "stk8") :=
  ⟨rfl,
   present_vsync_failure_fatal.2.1 "stk8" entryInit ⟨false, 0, 0, false⟩ [] rfl,
   present_vsync_failure_fatal.2.2
     ⟨true, .level_11_0, [⟨false, 0, 0, false⟩], "stk8"⟩
     (assertionFailed "SUCCEEDED(hr)" "stk8") rfl⟩

/-- C10: whatever the environment does, `main` returns exit status 0 — also
when the run terminates via a failure, in which case the top-level handler
catches the exception and prints its diagnostic; failure is therefore not
observable in the process exit code. -/
theorem failure_exit_status_zero (env : EntryEnv) :
    (main env).2 = 0 ∧
      ∀ e, Entry env = .error e → (main env).1 = some e := by
  cases hE : Entry env <;> simp [main, hE]

/-- C10 witness: a run whose device creation fails prints the crash
diagnostic and still exits with status 0. -/
theorem failure_exit_status_zero_witness :
    (main ⟨false, .level_11_0, [], "stk10"⟩).2 = 0 ∧
    (main ⟨false, .level_11_0, [], "stk10"⟩).1 =
      some (assertionFailed "SUCCEEDED(hr)" "stk10") :=
  ⟨(failure_exit_status_zero ⟨false, .level_11_0, [], "stk10"⟩).1,
    (failure_exit_status_zero ⟨false, .level_11_0, [], "stk10"⟩).2
      (assertionFailed "SUCCEEDED(hr)" "stk10") rfl⟩

end BRDFs
